import Mathlib

/-!
Verification of the tabularis `src-tauri` core: a shallow embedding of
`ssh_tunnel.rs`, `pool_manager.rs`, `drivers/mysql.rs` and
`drivers/sqlite.rs`, together with theorems settling the specification
claims about backend selection, pool caching, driver connection usage,
value decoding, introspection flags and error handling.

Conventions of the embedding:
* Rust machine integers become `Int`/`Nat`; `i64::MAX` appears explicitly
  where `serde_json::Number::is_i64` tests representability.
* `f64` values are modelled by the abstract type `F64` carrying only the
  information the code inspects (finiteness, and an injection of integer
  casts); no floating-point arithmetic occurs anywhere in the sources
  being modelled.
* Externally observable actions of a driver operation (dialing a
  connection, sending a statement) are reified as an `Effect` trace
  returned next to the operation's result; external outcomes (engine
  replies, authentication results) are inputs to the model.
* `serde_json::Value` becomes `JVal`; the `Array`/`Object` payloads are
  dropped because every modelled operation only ever matches them with a
  wildcard.
-/

/-- Single-quote character as a string, used to build SQL literals. -/
def squote : String := String.singleton (Char.ofNat 39)

/-- Uppercasing as performed by Rust `str::to_uppercase` on the ASCII type
names that reach it in `drivers/sqlite.rs`. -/
def to_uppercase (s : String) : String := String.mk (s.toList.map Char.toUpper)

/-- Character-list test: does the list start with the pattern? -/
def starts_with_chars : List Char → List Char → Bool
  | _, [] => true
  | [], _ :: _ => false
  | c :: cs, p :: ps => (c == p) && starts_with_chars cs ps

/-- Character-list substring occurrence test. -/
def chars_contain : List Char → List Char → Bool
  | [], pat => pat.isEmpty
  | c :: cs, pat => starts_with_chars (c :: cs) pat || chars_contain cs pat

/-- Substring test mirroring Rust `str::contains`. -/
def contains_substr (hay pat : String) : Bool := chars_contain hay.toList pat.toList

/-- Drop leading whitespace characters. -/
def drop_while_ws : List Char → List Char
  | [] => []
  | c :: cs => if c.isWhitespace then drop_while_ws cs else c :: cs

/-- Whitespace trimming mirroring Rust `str::trim` (the paths the claims
exercise only ever trim ASCII whitespace or nothing). -/
def str_trim (s : String) : String :=
  String.mk (drop_while_ws (drop_while_ws s.toList.reverse).reverse)

/-- Hex digit characters for percent-encoding. -/
def hex_digit (n : Nat) : Char :=
  if n < 10 then Char.ofNat (48 + n) else Char.ofNat (55 + n)

/-- Percent-encoding of one UTF-8 byte as done by the `urlencoding` crate:
bytes in the unreserved set `A-Z a-z 0-9 - . _ ~` pass through, every
other byte becomes `%HH` with uppercase hex. -/
def urlencode_byte (b : Nat) : String :=
  if (65 ≤ b && b ≤ 90) || (97 ≤ b && b ≤ 122) || (48 ≤ b && b ≤ 57)
     || b == 45 || b == 46 || b == 95 || b == 126 then
    String.singleton (Char.ofNat b)
  else
    String.singleton (Char.ofNat 37) ++ String.singleton (hex_digit (b / 16))
      ++ String.singleton (hex_digit (b % 16))

/-- `urlencoding::encode`: percent-encode each UTF-8 byte of the input. -/
def urlencode (s : String) : String :=
  (s.toUTF8.toList.map (fun b => urlencode_byte b.toNat)).foldl (· ++ ·) ""

/-- Abstract model of a Rust `f64` value. The modelled code never computes
with floats; it only casts integers to `f64` (`serde_json::Number::as_f64`)
and asks whether a float is finite (`serde_json::Number::from_f64`).
`other` stands for any float that did not arise from an integer cast, with
its finiteness recorded and an index to tell distinct values apart. -/
inductive F64 where
  | ofInt (n : Int)
  | other (finite : Bool) (id : Nat)
deriving DecidableEq

/-- Finiteness of a modelled `f64`: integer casts are always finite. -/
def F64.is_finite : F64 → Bool
  | .ofInt _ => true
  | .other f _ => f

/-- Rendering stand-in for `f64::to_string`; only ever reached on paths no
claim exercises (a `u64` above `i64::MAX` is rendered instead). -/
def F64.render : F64 → String
  | .ofInt n => toString n
  | .other _ id => "float#" ++ toString id

/-- `i64::MAX`, used by `serde_json::Number::is_i64` on the `u64` variant. -/
def i64_max : Int := 2 ^ 63 - 1

/-- `serde_json::Number`: an integer that fit in `i64`, a nonnegative
integer stored as `u64`, or a finite `f64`. -/
inductive JNum where
  | i64 (n : Int)
  | u64 (n : Nat)
  | f64 (x : F64)
deriving DecidableEq

/-- `serde_json::Number::is_i64`. -/
def JNum.is_i64 : JNum → Bool
  | .i64 _ => true
  | .u64 n => (n : Int) ≤ i64_max
  | .f64 _ => false

/-- `serde_json::Number::is_f64`. -/
def JNum.is_f64 : JNum → Bool
  | .f64 _ => true
  | .i64 _ => false
  | .u64 _ => false

/-- `serde_json::Number::as_i64`. -/
def JNum.as_i64 : JNum → Option Int
  | .i64 n => some n
  | .u64 n => if (n : Int) ≤ i64_max then some n else none
  | .f64 _ => none

/-- `serde_json::Number::as_f64` (integer variants cast to `f64`). -/
def JNum.as_f64 : JNum → Option F64
  | .i64 n => some (.ofInt n)
  | .u64 n => some (.ofInt n)
  | .f64 x => some x

/-- `serde_json::Number::to_string` (`Display`); the `f64` case uses the
abstract rendering stand-in. -/
def JNum.render : JNum → String
  | .i64 n => toString n
  | .u64 n => toString n
  | .f64 x => x.render

/-- `serde_json::Number::from_f64`: succeeds exactly on finite floats. -/
def serde_number_from_f64 (x : F64) : Option JNum :=
  if x.is_finite then some (.f64 x) else none

/-- `serde_json::Value`. `arr`/`obj` stand for the `Array`/`Object`
variants; their payloads are dropped since every modelled operation
matches them only with a `_` wildcard. -/
inductive JVal where
  | null
  | bool (b : Bool)
  | num (n : JNum)
  | str (s : String)
  | arr
  | obj
deriving DecidableEq

/-- `ConnectionParams` fields used by the modelled core (`models.rs` is
not among the provided sources; the fields are reconstructed from their
uses in `pool_manager.rs` and the drivers and match spec section 6). -/
structure ConnectionParams where
  driver : String
  host : Option String
  port : Option Nat
  database : String
  username : Option String
  password : Option String
deriving DecidableEq

/-- `TableInfo` as used by the drivers. -/
structure TableInfo where
  name : String
deriving DecidableEq

/-- `TableColumn` as used by the drivers. -/
structure TableColumn where
  name : String
  data_type : String
  is_pk : Bool
  is_nullable : Bool
  is_auto_increment : Bool
deriving DecidableEq

/-- `QueryResult` as assembled by the drivers' `map_rows`. -/
structure QueryResult where
  columns : List String
  rows : List (List JVal)
  affected_rows : Nat
deriving DecidableEq

/-- The two tunnel backends of `ssh_tunnel.rs` (`TunnelBackend`). -/
inductive TunnelBackendChoice where
  | systemSsh
  | libSsh2
deriving DecidableEq

/-- Backend selection performed by `SshTunnel::new` (ssh_tunnel.rs lines
42 and 55-76): `use_system_ssh = ssh_password.is_none()`; the system-ssh
(external process) constructor runs when that flag is true, the libssh2
(embedded) constructor otherwise. -/
def ssh_tunnel_new_backend (ssh_password : Option String) : TunnelBackendChoice :=
  let use_system_ssh := ssh_password.isNone
  if use_system_ssh then .systemSsh else .libSsh2

/-- Authentication methods the libssh2 path can attempt. -/
inductive AuthMethod where
  | keyFile
  | password
  | agent
deriving DecidableEq

/-- External outcomes of the libssh2 authentication calls: whether each
method would succeed against the server, and the value of
`Session::authenticated()` after a successful call. -/
structure AuthEnv where
  key_auth_ok : Bool
  password_auth_ok : Bool
  agent_auth_ok : Bool
  session_authenticated : Bool
deriving DecidableEq

def err_key_auth : String := "SSH key auth failed"
def err_password_auth : String := "SSH password auth failed"
def err_agent_auth : String := "SSH agent auth failed"
def err_no_creds : String := "No SSH credentials provided"
def err_not_authenticated : String := "SSH authentication failed"

/-- Shared tail of every successful auth branch: `new_libssh2` checks
`sess.authenticated()` after the chosen method succeeded
(ssh_tunnel.rs lines 205-207). -/
def libssh2_auth_post (env : AuthEnv) (tried : List AuthMethod) :
    List AuthMethod × Except String Unit :=
  if env.session_authenticated then (tried, .ok ()) else (tried, .error err_not_authenticated)

/-- Authentication logic of `SshTunnel::new_libssh2` (ssh_tunnel.rs lines
180-207), returning the list of methods attempted and the result. A
present, non-blank key-file path attempts public-key auth (the password,
if any, is passed as the key's passphrase); a present-but-blank path falls
back to password auth or, with no password, fails immediately; with no
key-file field at all, password auth is used when a password exists and
agent auth otherwise. Each `map_err` returns on failure: no method falls
through to the next on failure, only on unavailability. -/
def libssh2_auth (ssh_key_file ssh_password : Option String) (env : AuthEnv) :
    List AuthMethod × Except String Unit :=
  match ssh_key_file with
  | some key_path =>
    if !(str_trim key_path == "") then
      if env.key_auth_ok then libssh2_auth_post env [.keyFile]
      else ([.keyFile], .error err_key_auth)
    else
      match ssh_password with
      | some _ =>
        if env.password_auth_ok then libssh2_auth_post env [.password]
        else ([.password], .error err_password_auth)
      | none => ([], .error err_no_creds)
  | none =>
    match ssh_password with
    | some _ =>
      if env.password_auth_ok then libssh2_auth_post env [.password]
      else ([.password], .error err_password_auth)
    | none =>
      if env.agent_auth_ok then libssh2_auth_post env [.agent]
      else ([.agent], .error err_agent_auth)

/-- Pool handles are identified by an abstract id; equality of ids models
"same shared pool object". -/
abbrev PoolId := Nat

/-- The per-backend cache `HashMap<String, Pool<T>>` as an association
list without duplicate keys. -/
abbrev PoolCache := List (String × PoolId)

/-- `HashMap::get` on the cache. -/
def pool_lookup (c : PoolCache) (k : String) : Option PoolId :=
  match c with
  | [] => none
  | (k', p) :: rest => if k' = k then some p else pool_lookup rest k

/-- `HashMap::insert` on the cache: replaces an existing binding for the
key, otherwise appends. -/
def pool_insert (c : PoolCache) (k : String) (p : PoolId) : PoolCache :=
  match c with
  | [] => [(k, p)]
  | (k', p') :: rest =>
    if k' = k then (k, p) :: rest else (k', p') :: pool_insert rest k p

/-- `build_connection_key` (pool_manager.rs lines 16-24). -/
def build_connection_key (p : ConnectionParams) : String :=
  p.driver ++ ":" ++ p.host.getD "localhost" ++ ":" ++ toString (p.port.getD 0)
    ++ ":" ++ p.database

/-- `build_mysql_url` (pool_manager.rs lines 26-37). -/
def build_mysql_url (p : ConnectionParams) : String :=
  "mysql://" ++ urlencode (p.username.getD "") ++ ":" ++ urlencode (p.password.getD "")
    ++ "@" ++ p.host.getD "localhost" ++ ":" ++ toString (p.port.getD 3306)
    ++ "/" ++ p.database

/-- `build_sqlite_url` (pool_manager.rs lines 52-54). -/
def build_sqlite_url (p : ConnectionParams) : String := "sqlite://" ++ p.database

/-- One run of `get_mysql_pool` (pool_manager.rs lines 56-82). `c1` is the
cache observed under the read lock; `c2` is the cache found when the write
lock is later acquired (concurrent writers may have changed it in
between); `dial` is the outcome of `MySqlPoolOptions::connect`. On a read
miss the function dials and then inserts into `c2` without looking the key
up again. -/
def get_mysql_pool_run (p : ConnectionParams) (c1 c2 : PoolCache)
    (dial : Except String PoolId) : PoolCache × Except String PoolId :=
  let key := build_connection_key p
  match pool_lookup c1 key with
  | some pool => (c2, .ok pool)
  | none =>
    match dial with
    | .error e => (c2, .error e)
    | .ok fresh => (pool_insert c2 key fresh, .ok fresh)

/-- One run of `get_sqlite_pool` (pool_manager.rs lines 112-138); same
shape as the MySQL variant (only the dial URL and the connection bound
differ, both of which live inside `dial`). -/
def get_sqlite_pool_run (p : ConnectionParams) (c1 c2 : PoolCache)
    (dial : Except String PoolId) : PoolCache × Except String PoolId :=
  let key := build_connection_key p
  match pool_lookup c1 key with
  | some pool => (c2, .ok pool)
  | none =>
    match dial with
    | .error e => (c2, .error e)
    | .ok fresh => (pool_insert c2 key fresh, .ok fresh)

/-- Error message constants of the drivers. -/
def err_pk_type : String := "Unsupported PK type"

def err_value_type : String := "Unsupported Value type"

def err_value_type_lc : String := "Unsupported value type"

def err_no_data : String := "No data to insert"

/-- A parameter bound to a prepared statement via sqlx `bind`/`push_bind`.
`optInt`/`optFloat` mirror the Rust code binding `Option<i64>` and
`Option<f64>` values as produced by `as_i64`/`as_f64`. -/
inductive SqlParam where
  | optInt (x : Option Int)
  | optFloat (x : Option F64)
  | str (s : String)
  | bool (b : Bool)
deriving DecidableEq

/-- One piece of a built statement: literal SQL text (`QueryBuilder::push`
or the base query string) or a bound parameter (`bind`/`push_bind`). -/
inductive StmtPart where
  | sql (s : String)
  | bind (p : SqlParam)
deriving DecidableEq

/-- A statement as sent to the engine: SQL pieces and bound parameters in
order. -/
abbrev Stmt := List StmtPart

/-- Externally observable actions of a driver operation. -/
inductive Effect where
  | connectMySql (url : String)
  | connectSqlite (url : String)
  | poolObtain (key : String)
  | statement (st : Stmt)
deriving DecidableEq

/-- Recognizer for the pool-manager acquisition effect. -/
def Effect.is_pool_obtain : Effect → Bool
  | .poolObtain _ => true
  | _ => false

/-- Recognizer for an ad hoc `Connection::connect` dial. -/
def Effect.is_ad_hoc_dial : Effect → Bool
  | .connectMySql _ => true
  | .connectSqlite _ => true
  | _ => false

/-- The MySQL connection URL each driver operation formats inline
(drivers/mysql.rs, repeated at the top of every operation); textually the
same format string as `pool_manager::build_mysql_url`. -/
def mysql_conn_url (p : ConnectionParams) : String :=
  "mysql://" ++ urlencode (p.username.getD "") ++ ":" ++ urlencode (p.password.getD "")
    ++ "@" ++ p.host.getD "localhost" ++ ":" ++ toString (p.port.getD 3306)
    ++ "/" ++ p.database

/-- The SQLite connection URL each driver operation formats inline
(drivers/sqlite.rs). -/
def sqlite_conn_url (p : ConnectionParams) : String := "sqlite://" ++ p.database

/-- Catalog query of `mysql::get_tables` (drivers/mysql.rs line 14). -/
def mysql_tables_query : String :=
  "SELECT table_name as name FROM information_schema.tables WHERE table_schema = DATABASE()"

/-- Catalog query of `mysql::get_columns` (drivers/mysql.rs lines 27-32). -/
def mysql_columns_query : String :=
  "SELECT column_name, data_type, column_key, is_nullable, extra FROM information_schema.columns WHERE table_schema = DATABASE() AND table_name = ? ORDER BY ordinal_position"

/-- Effects of `mysql::get_tables` (drivers/mysql.rs lines 7-17): dial the
per-call connection, then fetch the catalog query. -/
def mysql_get_tables_effects (p : ConnectionParams) : List Effect :=
  Effect.connectMySql (mysql_conn_url p) :: [Effect.statement [StmtPart.sql mysql_tables_query]]

/-- Effects of `mysql::get_columns` (drivers/mysql.rs lines 19-36): dial,
then fetch the catalog query with the table name bound. -/
def mysql_get_columns_effects (p : ConnectionParams) (table_name : String) : List Effect :=
  Effect.connectMySql (mysql_conn_url p)
    :: [Effect.statement [StmtPart.sql mysql_columns_query, StmtPart.bind (SqlParam.str table_name)]]

/-- `mysql::delete_record` (drivers/mysql.rs lines 52-73): dial, build the
DELETE, bind the primary-key value by kind (integer when `is_i64`, float
when `is_f64`, decimal text otherwise for a large `u64`; strings bind as
text; anything else fails) and execute. Returns the effect trace and the
statement sent, or the error. Engine-side failures of the execute itself
are external and not modelled. -/
def mysql_delete_record (p : ConnectionParams) (table pk_col : String) (pk_val : JVal) :
    List Effect × Except String Stmt :=
  let url := mysql_conn_url p
  let query := "DELETE FROM `" ++ table ++ "` WHERE `" ++ pk_col ++ "` = ?"
  match pk_val with
  | .num n =>
    let st : Stmt :=
      if n.is_i64 then [StmtPart.sql query, StmtPart.bind (SqlParam.optInt n.as_i64)]
      else if n.is_f64 then [StmtPart.sql query, StmtPart.bind (SqlParam.optFloat n.as_f64)]
      else [StmtPart.sql query, StmtPart.bind (SqlParam.str n.render)]
    (Effect.connectMySql url :: [Effect.statement st], .ok st)
  | .str s =>
    let st : Stmt := [StmtPart.sql query, StmtPart.bind (SqlParam.str s)]
    (Effect.connectMySql url :: [Effect.statement st], .ok st)
  | _ => ([Effect.connectMySql url], .error err_pk_type)

/-- Binding of a data value in `mysql::update_record`/`insert_record`
(drivers/mysql.rs lines 85-91 and 128-134): numbers bind as integer when
`is_i64` and as float otherwise, strings and booleans bind as parameters,
`Null` is pushed as a literal SQL `NULL` token, and any other kind fails. -/
def mysql_bind_value (v : JVal) (emsg : String) : Except String StmtPart :=
  match v with
  | .num n =>
    .ok (StmtPart.bind (if n.is_i64 then SqlParam.optInt n.as_i64 else SqlParam.optFloat n.as_f64))
  | .str s => .ok (StmtPart.bind (SqlParam.str s))
  | .bool b => .ok (StmtPart.bind (SqlParam.bool b))
  | .null => .ok (StmtPart.sql "NULL")
  | _ => .error emsg

/-- `mysql::update_record` (drivers/mysql.rs lines 75-104): dial, push the
UPDATE head, bind the new value (NULL as a literal), push the WHERE piece,
bind the primary-key value (numbers and strings only) and execute. -/
def mysql_update_record (p : ConnectionParams) (table pk_col : String) (pk_val : JVal)
    (col_name : String) (new_val : JVal) : List Effect × Except String Stmt :=
  let url := mysql_conn_url p
  let head : Stmt := [StmtPart.sql ("UPDATE `" ++ table ++ "` SET `" ++ col_name ++ "` = ")]
  match mysql_bind_value new_val err_value_type with
  | .error e => ([Effect.connectMySql url], .error e)
  | .ok valPart =>
    let st2 : Stmt := head ++ [valPart, StmtPart.sql (" WHERE `" ++ pk_col ++ "` = ")]
    match pk_val with
    | .num n =>
      let st := st2 ++ [StmtPart.bind
        (if n.is_i64 then SqlParam.optInt n.as_i64 else SqlParam.optFloat n.as_f64)]
      (Effect.connectMySql url :: [Effect.statement st], .ok st)
    | .str s =>
      let st := st2 ++ [StmtPart.bind (SqlParam.str s)]
      (Effect.connectMySql url :: [Effect.statement st], .ok st)
    | _ => ([Effect.connectMySql url], .error err_pk_type)

/-- Comma-separated bind list of `insert_record` (the `separated(", ")`
builder): one part per value with a ", " SQL piece between consecutive
parts; the first unsupported value aborts. -/
def insert_binds (emsg : String) : List JVal → Except String (List StmtPart)
  | [] => .ok []
  | v :: rest =>
    match mysql_bind_value v emsg with
    | .error e => .error e
    | .ok part =>
      match insert_binds emsg rest with
      | .error e => .error e
      | .ok [] => .ok [part]
      | .ok parts => .ok (part :: StmtPart.sql ", " :: parts)

/-- `mysql::insert_record` (drivers/mysql.rs lines 106-141): dial the
per-call connection, split the row mapping into backtick-quoted column
names and values (the mapping is modelled as an association list since
Rust `HashMap` iteration order is unspecified), fail with the
no-columns error when it is empty, otherwise build and execute the
INSERT. The connect precedes the emptiness check, as in the source. -/
def mysql_insert_record (p : ConnectionParams) (table : String)
    (data : List (String × JVal)) : List Effect × Except String Stmt :=
  let url := mysql_conn_url p
  let cols := data.map (fun kv => "`" ++ kv.1 ++ "`")
  let vals := data.map Prod.snd
  if cols.isEmpty then ([Effect.connectMySql url], .error err_no_data)
  else
    match insert_binds err_value_type_lc vals with
    | .error e => ([Effect.connectMySql url], .error e)
    | .ok parts =>
      let st : Stmt :=
        StmtPart.sql ("INSERT INTO `" ++ table ++ "` (" ++ String.intercalate (", ") cols
          ++ ") VALUES (") :: parts ++ [StmtPart.sql ")"]
      (Effect.connectMySql url :: [Effect.statement st], .ok st)

/-- One result cell of a MySQL row, recording which sqlx `try_get`
extractions would succeed and with what value. Temporal types carry the
string produced by their `to_string` rendering, which is all the driver
uses. -/
structure MySqlCell where
  as_i64 : Option Int
  as_i32 : Option Int
  as_text : Option String
  as_bool : Option Bool
  as_timestamp : Option String
  as_date : Option String
  as_time : Option String
  as_f64 : Option F64
deriving DecidableEq

/-- The value produced from a successfully extracted `f64` cell:
`serde_json::Number::from_f64(v).map(Value::Number).unwrap_or(Value::Null)`
(drivers/mysql.rs line 173, drivers/sqlite.rs line 138). -/
def f64_cell_value (x : F64) : JVal :=
  match serde_number_from_f64 x with
  | some n => .num n
  | none => .null

/-- Cell decoding chain of `mysql::map_rows` (drivers/mysql.rs lines
165-174): the if-else ladder trying i64, i32, String, bool,
NaiveDateTime, NaiveDate, NaiveTime, f64 in order, defaulting to Null. -/
def mysql_decode_cell (c : MySqlCell) : JVal :=
  match c.as_i64 with
  | some v => .num (.i64 v)
  | none =>
    match c.as_i32 with
    | some v => .num (.i64 v)
    | none =>
      match c.as_text with
      | some v => .str v
      | none =>
        match c.as_bool with
        | some v => .bool v
        | none =>
          match c.as_timestamp with
          | some v => .str v
          | none =>
            match c.as_date with
            | some v => .str v
            | none =>
              match c.as_time with
              | some v => .str v
              | none =>
                match c.as_f64 with
                | some v => f64_cell_value v
                | none => .null

/-- A fetched MySQL row: its column names and its cells in column order. -/
structure MySqlRowM where
  columns : List String
  cells : List MySqlCell
deriving DecidableEq

/-- `mysql::map_rows` (drivers/mysql.rs lines 156-180): empty result sets
yield an empty `QueryResult`; otherwise the column names come from the
first row, every cell is decoded by the priority chain, and
`affected_rows` is set to 0. -/
def mysql_map_rows (rows : List MySqlRowM) : QueryResult :=
  match rows with
  | [] => { columns := [], rows := [], affected_rows := 0 }
  | r0 :: _ =>
    { columns := r0.columns
      rows := rows.map (fun r => r.cells.map mysql_decode_cell)
      affected_rows := 0 }

/-- `mysql::execute_query` (drivers/mysql.rs lines 143-154): dial the
per-call connection, fetch all rows of the verbatim query, and map them.
`fetched` is the engine's row response; `engine_affected` is the number of
rows the engine actually affected for a mutating statement — sqlx
`fetch_all` never exposes it, so the parameter does not flow into the
result. -/
def mysql_execute_query (p : ConnectionParams) (query : String)
    (fetched : List MySqlRowM) (engine_affected : Nat) : List Effect × QueryResult :=
  let _ := engine_affected
  (Effect.connectMySql (mysql_conn_url p) :: [Effect.statement [StmtPart.sql query]],
    mysql_map_rows fetched)

/-- Catalog query of `sqlite::get_tables` (drivers/sqlite.rs line 8). -/
def sqlite_tables_query : String :=
  "SELECT name FROM sqlite_master WHERE type=" ++ squote ++ "table" ++ squote
    ++ " AND name NOT LIKE " ++ squote ++ "sqlite_%" ++ squote

/-- Introspection query of `sqlite::get_columns` (drivers/sqlite.rs line
20): `PRAGMA table_info` with the table name spliced between single
quotes. -/
def sqlite_table_info_query (table_name : String) : String :=
  "PRAGMA table_info(" ++ squote ++ table_name ++ squote ++ ")"

/-- Effects of `sqlite::get_tables` (drivers/sqlite.rs lines 5-11). -/
def sqlite_get_tables_effects (p : ConnectionParams) : List Effect :=
  Effect.connectSqlite (sqlite_conn_url p) :: [Effect.statement [StmtPart.sql sqlite_tables_query]]

/-- One row of `PRAGMA table_info` output as read by `sqlite::get_columns`
(drivers/sqlite.rs lines 25-28): the `try_get` results for the fields the
code consumes, with `unwrap_or` defaults already applied. -/
structure PragmaRow where
  name : String
  dtype : String
  notnull : Int
  pk : Int
deriving DecidableEq

/-- Column construction of `sqlite::get_columns` (drivers/sqlite.rs lines
25-39): primary key iff the `pk` flag is positive, nullable iff the
`notnull` flag equals 0, auto-increment iff primary key and the uppercased
declared type contains "INT". -/
def sqlite_column_of_row (r : PragmaRow) : TableColumn :=
  let is_auto := decide (0 < r.pk) && contains_substr (to_uppercase r.dtype) "INT"
  { name := r.name
    data_type := r.dtype
    is_pk := decide (0 < r.pk)
    is_nullable := r.notnull == 0
    is_auto_increment := is_auto }

/-- `sqlite::get_columns` (drivers/sqlite.rs lines 13-40): dial the
per-call connection, fetch the pragma rows, and map each to a
`TableColumn`. -/
def sqlite_get_columns (p : ConnectionParams) (table_name : String)
    (rows : List PragmaRow) : List Effect × List TableColumn :=
  (Effect.connectSqlite (sqlite_conn_url p)
      :: [Effect.statement [StmtPart.sql (sqlite_table_info_query table_name)]],
    rows.map sqlite_column_of_row)

/-- `sqlite::delete_record` (drivers/sqlite.rs lines 42-58): dial, build
the double-quoted DELETE, bind the primary-key value (integer when
`is_i64`, float otherwise for numbers; text for strings; anything else
fails) and execute. -/
def sqlite_delete_record (p : ConnectionParams) (table pk_col : String) (pk_val : JVal) :
    List Effect × Except String Stmt :=
  let url := sqlite_conn_url p
  let query := "DELETE FROM \"" ++ table ++ "\" WHERE \"" ++ pk_col ++ "\" = ?"
  match pk_val with
  | .num n =>
    let st : Stmt :=
      if n.is_i64 then [StmtPart.sql query, StmtPart.bind (SqlParam.optInt n.as_i64)]
      else [StmtPart.sql query, StmtPart.bind (SqlParam.optFloat n.as_f64)]
    (Effect.connectSqlite url :: [Effect.statement st], .ok st)
  | .str s =>
    let st : Stmt := [StmtPart.sql query, StmtPart.bind (SqlParam.str s)]
    (Effect.connectSqlite url :: [Effect.statement st], .ok st)
  | _ => ([Effect.connectSqlite url], .error err_pk_type)

/-- `sqlite::update_record` (drivers/sqlite.rs lines 60-85): same shape as
the MySQL variant with double-quote identifier quoting; the data-value and
primary-key binding rules are identical. -/
def sqlite_update_record (p : ConnectionParams) (table pk_col : String) (pk_val : JVal)
    (col_name : String) (new_val : JVal) : List Effect × Except String Stmt :=
  let url := sqlite_conn_url p
  let head : Stmt := [StmtPart.sql ("UPDATE \"" ++ table ++ "\" SET \"" ++ col_name ++ "\" = ")]
  match mysql_bind_value new_val err_value_type with
  | .error e => ([Effect.connectSqlite url], .error e)
  | .ok valPart =>
    let st2 : Stmt := head ++ [valPart, StmtPart.sql (" WHERE \"" ++ pk_col ++ "\" = ")]
    match pk_val with
    | .num n =>
      let st := st2 ++ [StmtPart.bind
        (if n.is_i64 then SqlParam.optInt n.as_i64 else SqlParam.optFloat n.as_f64)]
      (Effect.connectSqlite url :: [Effect.statement st], .ok st)
    | .str s =>
      let st := st2 ++ [StmtPart.bind (SqlParam.str s)]
      (Effect.connectSqlite url :: [Effect.statement st], .ok st)
    | _ => ([Effect.connectSqlite url], .error err_pk_type)

/-- `sqlite::insert_record` (drivers/sqlite.rs lines 87-118): dial the
per-call connection, split the mapping into double-quoted column names and
values, fail with the no-columns error when empty, otherwise build and
execute the INSERT. The connect precedes the emptiness check, as in the
source. -/
def sqlite_insert_record (p : ConnectionParams) (table : String)
    (data : List (String × JVal)) : List Effect × Except String Stmt :=
  let url := sqlite_conn_url p
  let cols := data.map (fun kv => "\"" ++ kv.1 ++ "\"")
  let vals := data.map Prod.snd
  if cols.isEmpty then ([Effect.connectSqlite url], .error err_no_data)
  else
    match insert_binds err_value_type_lc vals with
    | .error e => ([Effect.connectSqlite url], .error e)
    | .ok parts =>
      let st : Stmt :=
        StmtPart.sql ("INSERT INTO \"" ++ table ++ "\" (" ++ String.intercalate (", ") cols
          ++ ") VALUES (") :: parts ++ [StmtPart.sql ")"]
      (Effect.connectSqlite url :: [Effect.statement st], .ok st)

/-- One result cell of a SQLite row: which sqlx `try_get` extractions
would succeed and with what value. -/
structure SqliteCell where
  as_i64 : Option Int
  as_f64 : Option F64
  as_text : Option String
  as_bool : Option Bool
deriving DecidableEq

/-- Cell decoding chain of `sqlite::map_rows` (drivers/sqlite.rs lines
137-141): i64, f64, String, bool in order, defaulting to Null. -/
def sqlite_decode_cell (c : SqliteCell) : JVal :=
  match c.as_i64 with
  | some v => .num (.i64 v)
  | none =>
    match c.as_f64 with
    | some v => f64_cell_value v
    | none =>
      match c.as_text with
      | some v => .str v
      | none =>
        match c.as_bool with
        | some v => .bool v
        | none => .null

/-- A fetched SQLite row: its column names and its cells in column order. -/
structure SqliteRowM where
  columns : List String
  cells : List SqliteCell
deriving DecidableEq

/-- `sqlite::map_rows` (drivers/sqlite.rs lines 128-147). -/
def sqlite_map_rows (rows : List SqliteRowM) : QueryResult :=
  match rows with
  | [] => { columns := [], rows := [], affected_rows := 0 }
  | r0 :: _ =>
    { columns := r0.columns
      rows := rows.map (fun r => r.cells.map sqlite_decode_cell)
      affected_rows := 0 }

/-- `sqlite::execute_query` (drivers/sqlite.rs lines 120-126); see
`mysql_execute_query` for the role of `engine_affected`. -/
def sqlite_execute_query (p : ConnectionParams) (query : String)
    (fetched : List SqliteRowM) (engine_affected : Nat) : List Effect × QueryResult :=
  let _ := engine_affected
  (Effect.connectSqlite (sqlite_conn_url p) :: [Effect.statement [StmtPart.sql query]],
    sqlite_map_rows fetched)

/-- The extraction attempts available on a MySQL cell, in the vocabulary
of the specification's value-probe order. -/
inductive MySqlExtract where
  | i64
  | i32
  | text
  | bool
  | timestamp
  | date
  | time
  | f64
deriving DecidableEq

/-- A single extraction attempt on a MySQL cell, returning the decoded
value on success. -/
def mysql_extract (c : MySqlCell) : MySqlExtract → Option JVal
  | .i64 => c.as_i64.map (fun v => .num (.i64 v))
  | .i32 => c.as_i32.map (fun v => .num (.i64 v))
  | .text => c.as_text.map .str
  | .bool => c.as_bool.map .bool
  | .timestamp => c.as_timestamp.map .str
  | .date => c.as_date.map .str
  | .time => c.as_time.map .str
  | .f64 => c.as_f64.map f64_cell_value

/-- The extraction attempts available on a SQLite cell. -/
inductive SqliteExtract where
  | i64
  | f64
  | text
  | bool
deriving DecidableEq

/-- A single extraction attempt on a SQLite cell. -/
def sqlite_extract (c : SqliteCell) : SqliteExtract → Option JVal
  | .i64 => c.as_i64.map (fun v => .num (.i64 v))
  | .f64 => c.as_f64.map f64_cell_value
  | .text => c.as_text.map .str
  | .bool => c.as_bool.map .bool

/-- Generic fixed-priority probe, written to the specification's words:
attempt the extractions in the given order, the first success wins, and
`Null` is the final fallback. -/
def probe_first {α τ : Type} (extract : α → τ → Option JVal) : List τ → α → JVal
  | [], _ => .null
  | t :: ts, c =>
    match extract c t with
    | some v => v
    | none => probe_first extract ts c

/-- The server-class (MySQL) priority order exactly as the specification
states it: signed 64-bit int, signed 32-bit int, text, bool, timestamp,
date, time, double. -/
def mysql_priority_order : List MySqlExtract :=
  [.i64, .i32, .text, .bool, .timestamp, .date, .time, .f64]

/-- The embedded (SQLite) priority order exactly as the specification
states it: signed 64-bit int, double, text, bool. -/
def sqlite_priority_order : List SqliteExtract :=
  [.i64, .f64, .text, .bool]

/-- The primary-key kinds the drivers accept: Number or Text. -/
def pk_bindable : JVal → Bool
  | .num _ => true
  | .str _ => true
  | _ => false

/-- Driver error messages falling under the UnsupportedValueType taxonomy
entry (value kind not bindable for a data cell or a primary key). -/
def unsupported_msgs : List String :=
  ["Unsupported PK type", "Unsupported Value type", "Unsupported value type"]

/-- Whether a driver result is an UnsupportedValueType failure. -/
def is_unsupported_value_err {α : Type} : Except String α → Bool
  | .error e => unsupported_msgs.contains e
  | .ok _ => false

/-- Success test on a driver result. -/
def except_ok {α : Type} : Except String α → Bool
  | .ok _ => true
  | .error _ => false

/-- Whether a driver result is specifically the primary-key
UnsupportedValueType failure. -/
def except_is_pk_err {α : Type} : Except String α → Bool
  | .error e => e == err_pk_type
  | .ok _ => false

/-- A trace acquires its connection ad hoc: it never touches the pool
manager, and its first effect is a direct `Connection::connect` dial. -/
def ad_hoc_only (t : List Effect) : Bool :=
  (t.all fun e => !(e.is_pool_obtain)) &&
  (match t.head? with
   | some e => e.is_ad_hoc_dial
   | none => false)

/-- Concrete MySQL connection parameters used by witnesses. -/
def sample_mysql_params : ConnectionParams :=
  { driver := "mysql", host := some ("localhost"), port := some 3306
    database := "testdb", username := some ("root"), password := some ("secret") }

/-- Concrete SQLite connection parameters used by witnesses. -/
def sample_sqlite_params : ConnectionParams :=
  { driver := "sqlite", host := none, port := none
    database := "/tmp/test.db", username := none, password := none }

/-- An environment in which every authentication method would succeed. -/
def full_auth_env : AuthEnv :=
  { key_auth_ok := true, password_auth_ok := true, agent_auth_ok := true
    session_authenticated := true }

/-- The `PRAGMA table_info` row for column `id` of
`CREATE TABLE t (id INTEGER PRIMARY KEY, name TEXT NOT NULL)`: key
position 1, declared type INTEGER, and not-null flag 0 — the embedded
engine sets the flag only for an explicit NOT NULL constraint, which `id`
does not carry. The engine is an external collaborator; this row follows
its documented `PRAGMA table_info` output. -/
def pragma_id_row : PragmaRow :=
  { name := "id", dtype := "INTEGER", notnull := 0, pk := 1 }

/-- The `PRAGMA table_info` row for column `name` of the same table:
not-null flag 1, key position 0. -/
def pragma_name_row : PragmaRow :=
  { name := "name", dtype := "TEXT", notnull := 1, pk := 0 }

/-- C1 counterexample: `SshTunnel::new` with a supplied SSH password picks
the embedded libssh2 backend, not the external-process backend the claim
requires (`use_system_ssh = ssh_password.is_none()`). -/
theorem tunnel_backend_claim_counterexample :
    ssh_tunnel_new_backend (some ("secret")) = TunnelBackendChoice.libSsh2 ∧
    ssh_tunnel_new_backend (some ("secret")) ≠ TunnelBackendChoice.systemSsh := by
  exact ⟨rfl, by decide⟩

/-- C1 (amended): for every call to `SshTunnel::new`, if an SSH password
is supplied the embedded (libssh2) backend is used, and otherwise the
external-process (system ssh) backend is used. -/
theorem tunnel_backend_password_goes_embedded :
    (∀ s : String, ssh_tunnel_new_backend (some s) = TunnelBackendChoice.libSsh2) ∧
    ssh_tunnel_new_backend none = TunnelBackendChoice.systemSsh := by
  exact ⟨fun _ => rfl, rfl⟩

/-- C2 counterexample: with an empty cache at read-lock time but the key
already mapped to pool 7 when the write lock is acquired (a concurrent
obtain inserted it), `get_mysql_pool` dials pool 9, returns it, and its
insert silently replaces pool 7 — the existing pool is neither returned
nor kept, so no re-check happens under the write lock. -/
theorem pool_obtain_recheck_counterexample :
    get_mysql_pool_run sample_mysql_params []
        [(build_connection_key sample_mysql_params, 7)] (Except.ok 9)
      = ([(build_connection_key sample_mysql_params, 9)], Except.ok 9) ∧
    (7 : PoolId) ≠ 9 := by
  exact ⟨rfl, by decide⟩

/-- C2 (amended): `obtain` returns the existing pool only when the key is
present at the read-lock lookup; on a read miss it dials and inserts under
the write lock without re-checking, so the insert overwrites whatever the
cache holds for the key at that moment, and a dial failure leaves the
cache unchanged. Both pool getters behave identically. -/
theorem pool_obtain_no_recheck_semantics :
    ∀ (p : ConnectionParams) (c1 c2 : PoolCache) (dial : Except String PoolId),
      (∀ q, pool_lookup c1 (build_connection_key p) = some q →
        get_mysql_pool_run p c1 c2 dial = (c2, Except.ok q) ∧
        get_sqlite_pool_run p c1 c2 dial = (c2, Except.ok q)) ∧
      (pool_lookup c1 (build_connection_key p) = none →
        (∀ fresh, dial = Except.ok fresh →
          get_mysql_pool_run p c1 c2 dial
            = (pool_insert c2 (build_connection_key p) fresh, Except.ok fresh) ∧
          get_sqlite_pool_run p c1 c2 dial
            = (pool_insert c2 (build_connection_key p) fresh, Except.ok fresh)) ∧
        (∀ e, dial = Except.error e →
          get_mysql_pool_run p c1 c2 dial = (c2, Except.error e) ∧
          get_sqlite_pool_run p c1 c2 dial = (c2, Except.error e))) := by
  intro p c1 c2 dial
  refine ⟨fun q hq => ?_, fun hmiss => ⟨fun fresh hd => ?_, fun e hd => ?_⟩⟩
  · simp [get_mysql_pool_run, get_sqlite_pool_run, hq]
  · simp [get_mysql_pool_run, get_sqlite_pool_run, hmiss, hd]
  · simp [get_mysql_pool_run, get_sqlite_pool_run, hmiss, hd]

/-- Witness for the amended C2 theorem at concrete inputs: a hit returns
the cached pool 7 without dialing a replacement, and a miss installs the
freshly dialed pool 9. -/
theorem pool_obtain_no_recheck_semantics_witness :
    get_mysql_pool_run sample_mysql_params
        [(build_connection_key sample_mysql_params, 7)] [] (Except.ok 9)
      = ([], Except.ok 7) ∧
    get_mysql_pool_run sample_mysql_params [] [] (Except.ok 9)
      = ([(build_connection_key sample_mysql_params, 9)], Except.ok 9) := by
  constructor
  · exact ((pool_obtain_no_recheck_semantics sample_mysql_params
      [(build_connection_key sample_mysql_params, 7)] [] (Except.ok 9)).1 7 (by decide)).1
  · exact (((pool_obtain_no_recheck_semantics sample_mysql_params
      [] [] (Except.ok 9)).2 rfl).1 9 rfl).1

/-- Helper: the MySQL delete trace is pool-free and starts with a dial. -/
theorem mysql_delete_trace_ad_hoc (p : ConnectionParams) (table pk_col : String) (v : JVal) :
    ad_hoc_only (mysql_delete_record p table pk_col v).1 = true := by
  cases v <;> rfl

/-- Helper: the SQLite delete trace is pool-free and starts with a dial. -/
theorem sqlite_delete_trace_ad_hoc (p : ConnectionParams) (table pk_col : String) (v : JVal) :
    ad_hoc_only (sqlite_delete_record p table pk_col v).1 = true := by
  cases v <;> rfl

/-- Helper: the MySQL update trace is pool-free and starts with a dial. -/
theorem mysql_update_trace_ad_hoc (p : ConnectionParams) (table pk_col col_name : String)
    (pk_val new_val : JVal) :
    ad_hoc_only (mysql_update_record p table pk_col pk_val col_name new_val).1 = true := by
  cases new_val <;> cases pk_val <;> rfl

/-- Helper: the SQLite update trace is pool-free and starts with a dial. -/
theorem sqlite_update_trace_ad_hoc (p : ConnectionParams) (table pk_col col_name : String)
    (pk_val new_val : JVal) :
    ad_hoc_only (sqlite_update_record p table pk_col pk_val col_name new_val).1 = true := by
  cases new_val <;> cases pk_val <;> rfl

/-- Helper: the MySQL insert trace is pool-free and starts with a dial. -/
theorem mysql_insert_trace_ad_hoc (p : ConnectionParams) (table : String)
    (data : List (String × JVal)) :
    ad_hoc_only (mysql_insert_record p table data).1 = true := by
  cases data with
  | nil => rfl
  | cons kv rest =>
    simp only [mysql_insert_record, List.map_cons, List.isEmpty_cons, Bool.false_eq_true,
      if_false]
    cases insert_binds err_value_type_lc (kv.2 :: rest.map Prod.snd) <;> rfl

/-- Helper: the SQLite insert trace is pool-free and starts with a dial. -/
theorem sqlite_insert_trace_ad_hoc (p : ConnectionParams) (table : String)
    (data : List (String × JVal)) :
    ad_hoc_only (sqlite_insert_record p table data).1 = true := by
  cases data with
  | nil => rfl
  | cons kv rest =>
    simp only [sqlite_insert_record, List.map_cons, List.isEmpty_cons, Bool.false_eq_true,
      if_false]
    cases insert_binds err_value_type_lc (kv.2 :: rest.map Prod.snd) <;> rfl

/-- C3 counterexample: `mysql::execute_query` at concrete parameters dials
its own per-call connection (first effect is `Connection::connect` with
the inline URL) and its trace never consults the Connection Pool Manager,
contradicting the claim that every operation obtains its connection from
the pool. -/
theorem driver_ops_pool_claim_counterexample :
    (mysql_execute_query sample_mysql_params ("SELECT 1") [] 0).1
      = [Effect.connectMySql (mysql_conn_url sample_mysql_params),
         Effect.statement [StmtPart.sql ("SELECT 1")]] ∧
    ((mysql_execute_query sample_mysql_params ("SELECT 1") [] 0).1.all
      fun e => !(e.is_pool_obtain)) = true := by
  exact ⟨rfl, rfl⟩

/-- C3 (amended): no driver operation obtains its connection from the
Connection Pool Manager — every operation (list_tables, list_columns,
delete_record, update_record, insert_record, execute_query, on both
backends) dials an ad hoc per-call connection: its effect trace starts
with a direct `Connection::connect` and contains no pool acquisition. -/
theorem driver_ops_dial_ad_hoc :
    ∀ (p : ConnectionParams) (table pk_col col_name q : String) (pk_val new_val : JVal)
      (data : List (String × JVal)) (mrows : List MySqlRowM) (srows : List SqliteRowM)
      (prows : List PragmaRow) (m n : Nat),
      ad_hoc_only (mysql_get_tables_effects p) = true ∧
      ad_hoc_only (mysql_get_columns_effects p table) = true ∧
      ad_hoc_only (mysql_delete_record p table pk_col pk_val).1 = true ∧
      ad_hoc_only (mysql_update_record p table pk_col pk_val col_name new_val).1 = true ∧
      ad_hoc_only (mysql_insert_record p table data).1 = true ∧
      ad_hoc_only (mysql_execute_query p q mrows m).1 = true ∧
      ad_hoc_only (sqlite_get_tables_effects p) = true ∧
      ad_hoc_only (sqlite_get_columns p table prows).1 = true ∧
      ad_hoc_only (sqlite_delete_record p table pk_col pk_val).1 = true ∧
      ad_hoc_only (sqlite_update_record p table pk_col pk_val col_name new_val).1 = true ∧
      ad_hoc_only (sqlite_insert_record p table data).1 = true ∧
      ad_hoc_only (sqlite_execute_query p q srows n).1 = true := by
  intro p table pk_col col_name q pk_val new_val data mrows srows prows m n
  refine ⟨rfl, rfl, mysql_delete_trace_ad_hoc p table pk_col pk_val,
    mysql_update_trace_ad_hoc p table pk_col col_name pk_val new_val,
    mysql_insert_trace_ad_hoc p table data, rfl, rfl, rfl,
    sqlite_delete_trace_ad_hoc p table pk_col pk_val,
    sqlite_update_trace_ad_hoc p table pk_col col_name pk_val new_val,
    sqlite_insert_trace_ad_hoc p table data, rfl⟩

/-- C4 counterexample: `mysql::insert_record` with an empty row mapping
does dial its per-call connection before failing — the trace contains the
`Connection::connect` effect, contradicting the claim that no connection
is dialed. -/
theorem insert_empty_no_dial_counterexample :
    mysql_insert_record sample_mysql_params ("t") []
      = ([Effect.connectMySql (mysql_conn_url sample_mysql_params)],
         Except.error err_no_data) ∧
    (Effect.connectMySql (mysql_conn_url sample_mysql_params)).is_ad_hoc_dial = true := by
  exact ⟨rfl, rfl⟩

/-- C4 (amended): `insert_record` with an empty row mapping fails with the
NoColumnsToInsert error and sends no SQL statement, but only after the
per-call connection has been dialed: on both backends the trace is exactly
the single connect effect and the result is the no-columns error. -/
theorem insert_empty_fails_after_dial :
    ∀ (p : ConnectionParams) (table : String),
      mysql_insert_record p table []
        = ([Effect.connectMySql (mysql_conn_url p)], Except.error err_no_data) ∧
      sqlite_insert_record p table []
        = ([Effect.connectSqlite (sqlite_conn_url p)], Except.error err_no_data) := by
  intro p table
  exact ⟨rfl, rfl⟩

/-- C5: on both backends the cell decoding chain of `map_rows` equals the
generic first-success probe run over exactly the engine-specific priority
order the specification states, with Null as the final fallback. -/
theorem decode_priority_order_exact :
    (∀ c : MySqlCell, mysql_decode_cell c = probe_first mysql_extract mysql_priority_order c) ∧
    (∀ c : SqliteCell, sqlite_decode_cell c = probe_first sqlite_extract sqlite_priority_order c) := by
  constructor
  · intro c
    obtain ⟨a1, a2, a3, a4, a5, a6, a7, a8⟩ := c
    cases a1 <;> cases a2 <;> cases a3 <;> cases a4 <;> cases a5 <;> cases a6 <;> cases a7
      <;> cases a8 <;> rfl
  · intro c
    obtain ⟨a1, a2, a3, a4⟩ := c
    cases a1 <;> cases a2 <;> cases a3 <;> cases a4 <;> rfl

/-- C7 counterexample: a mutating statement that the engine reports as
having affected 2 rows still comes back with `affected_rows = 0` from
`execute_query` on both backends. -/
theorem affected_rows_counterexample :
    (mysql_execute_query sample_mysql_params ("DELETE FROM t") [] 2).2.affected_rows = 0 ∧
    (sqlite_execute_query sample_sqlite_params ("DELETE FROM t") [] 2).2.affected_rows = 0 ∧
    (0 : Nat) ≠ 2 := by
  exact ⟨rfl, rfl, by decide⟩

/-- C7 (amended): the `QueryResult` returned by `execute_query` always has
`affected_rows = 0`; the engine's affected-row count for a mutating
statement is never propagated (both `map_rows` implementations hardcode
0, and `fetch_all` discards the count). -/
theorem execute_query_affected_rows_always_zero :
    ∀ (p : ConnectionParams) (q : String) (mrows : List MySqlRowM)
      (srows : List SqliteRowM) (m n : Nat),
      (mysql_execute_query p q mrows m).2.affected_rows = 0 ∧
      (sqlite_execute_query p q srows n).2.affected_rows = 0 := by
  intro p q mrows srows m n
  constructor
  · cases mrows <;> rfl
  · cases srows <;> rfl

/-- C10: a successful `execute_query` whose statement produced zero result
rows returns an empty column-name list, an empty row sequence, and
`affected_rows = 0`, on both backends. -/
theorem empty_result_query_result :
    ∀ (p : ConnectionParams) (q : String) (m n : Nat),
      (mysql_execute_query p q [] m).2
        = { columns := [], rows := [], affected_rows := 0 } ∧
      (sqlite_execute_query p q [] n).2
        = { columns := [], rows := [], affected_rows := 0 } := by
  intro p q m n
  exact ⟨rfl, rfl⟩


/-- C6 counterexample: on the actual `PRAGMA table_info` row for `id` in
`(id INTEGER PRIMARY KEY, name TEXT NOT NULL)` — key position 1, not-null
flag 0 since `id` carries no explicit NOT NULL — `get_columns` produces
`is_nullable = true`, not the `is_nullable = false` the claim expects. -/
theorem sqlite_introspection_example_counterexample :
    sqlite_column_of_row pragma_id_row
      ≠ { name := "id", data_type := "INTEGER", is_pk := true, is_nullable := false,
          is_auto_increment := true } ∧
    (sqlite_column_of_row pragma_id_row).is_nullable = true := by
  exact ⟨by decide, rfl⟩

/-- C6 (amended): for every column descriptor, `is_pk` is true iff the key
position flag is nonzero, `is_nullable` is the negation of the not-null
flag, and `is_auto_increment` is true iff the column is a primary key and
its uppercased declared type contains "INT"; the example table yields
id with is_pk true, is_nullable true (the not-null flag is 0 because `id`
has no explicit NOT NULL constraint) and is_auto_increment true, and name
with is_pk false, is_nullable false, is_auto_increment false. -/
theorem sqlite_column_flags_amended :
    (∀ r : PragmaRow, 0 ≤ r.pk →
      ((sqlite_column_of_row r).is_pk = true ↔ r.pk ≠ 0) ∧
      ((sqlite_column_of_row r).is_nullable = true ↔ r.notnull = 0) ∧
      ((sqlite_column_of_row r).is_auto_increment = true ↔
        (r.pk ≠ 0 ∧ contains_substr (to_uppercase r.dtype) ("INT") = true))) ∧
    sqlite_column_of_row pragma_id_row
      = { name := "id", data_type := "INTEGER", is_pk := true, is_nullable := true,
          is_auto_increment := true } ∧
    sqlite_column_of_row pragma_name_row
      = { name := "name", data_type := "TEXT", is_pk := false, is_nullable := false,
          is_auto_increment := false } := by
  refine ⟨fun r hr => ?_, by decide, by decide⟩
  have h1 : (sqlite_column_of_row r).is_pk = decide (0 < r.pk) := rfl
  have h2 : (sqlite_column_of_row r).is_nullable = (r.notnull == 0) := rfl
  have h3 : (sqlite_column_of_row r).is_auto_increment
      = (decide (0 < r.pk) && contains_substr (to_uppercase r.dtype) ("INT")) := rfl
  refine ⟨?_, ?_, ?_⟩
  · rw [h1]; simp only [decide_eq_true_eq]; omega
  · rw [h2]; simp
  · rw [h3]; simp only [Bool.and_eq_true, decide_eq_true_eq]
    exact and_congr ⟨fun hlt => by omega, fun hne => by omega⟩ Iff.rfl

/-- Witness for the amended C6 theorem at the concrete `id` pragma row. -/
theorem sqlite_column_flags_amended_witness :
    ((sqlite_column_of_row pragma_id_row).is_pk = true ↔ pragma_id_row.pk ≠ 0) ∧
    ((sqlite_column_of_row pragma_id_row).is_nullable = true ↔ pragma_id_row.notnull = 0) ∧
    ((sqlite_column_of_row pragma_id_row).is_auto_increment = true ↔
      (pragma_id_row.pk ≠ 0 ∧
        contains_substr (to_uppercase pragma_id_row.dtype) ("INT") = true)) :=
  sqlite_column_flags_amended.1 pragma_id_row (by decide)

/-- C8 counterexample: with a present-but-empty key-file path and no
password, `new_libssh2` fails with "No SSH credentials provided" without
attempting any method — in particular the SSH agent, which the claim says
is attempted next, is never tried. -/
theorem libssh2_auth_agent_counterexample :
    libssh2_auth (some ("")) none full_auth_env = ([], Except.error err_no_creds) ∧
    (libssh2_auth (some ("")) none full_auth_env).1.contains AuthMethod.agent = false := by
  exact ⟨rfl, rfl⟩

/-- C8 (amended): the embedded tunnel attempts exactly one method chosen
by availability — a present non-blank key-file path means key auth; a
present-but-blank path falls back to password when one is supplied but
fails with "No SSH credentials provided" (without trying the agent) when
none is; with no key-file field, password auth is used when a password is
supplied and agent auth otherwise — and a failure of the attempted method
is returned as the corresponding TunnelAuthFailed error without falling
through to later methods. -/
theorem libssh2_auth_precedence_amended :
    ∀ (key pw : Option String) (env : AuthEnv) (k : String),
      (key = some k → str_trim k ≠ "" →
        (libssh2_auth key pw env).1 = [AuthMethod.keyFile] ∧
        (env.key_auth_ok = false →
          (libssh2_auth key pw env).2 = Except.error err_key_auth)) ∧
      (key = some k → str_trim k = "" → pw.isSome = true →
        (libssh2_auth key pw env).1 = [AuthMethod.password] ∧
        (env.password_auth_ok = false →
          (libssh2_auth key pw env).2 = Except.error err_password_auth)) ∧
      (key = some k → str_trim k = "" → pw = none →
        libssh2_auth key pw env = ([], Except.error err_no_creds)) ∧
      (key = none → pw.isSome = true →
        (libssh2_auth key pw env).1 = [AuthMethod.password] ∧
        (env.password_auth_ok = false →
          (libssh2_auth key pw env).2 = Except.error err_password_auth)) ∧
      (key = none → pw = none →
        (libssh2_auth key pw env).1 = [AuthMethod.agent] ∧
        (env.agent_auth_ok = false →
          (libssh2_auth key pw env).2 = Except.error err_agent_auth)) := by
  intro key pw env k
  refine ⟨?_, ?_, ?_, ?_, ?_⟩
  · rintro rfl hk
    have hk' : (str_trim k == "") = false := by simp [hk]
    constructor
    · cases hko : env.key_auth_ok <;> cases hs : env.session_authenticated <;>
        simp [libssh2_auth, libssh2_auth_post, hk', hko, hs]
    · intro hfalse
      simp [libssh2_auth, hk', hfalse]
  · rintro rfl hk hpw
    have hk' : (str_trim k == "") = true := by simp [hk]
    cases pw with
    | none => simp at hpw
    | some s =>
      constructor
      · cases hpo : env.password_auth_ok <;> cases hs : env.session_authenticated <;>
          simp [libssh2_auth, libssh2_auth_post, hk', hpo, hs]
      · intro hfalse
        simp [libssh2_auth, hk', hfalse]
  · rintro rfl hk rfl
    have hk' : (str_trim k == "") = true := by simp [hk]
    simp [libssh2_auth, hk']
  · rintro rfl hpw
    cases pw with
    | none => simp at hpw
    | some s =>
      constructor
      · cases hpo : env.password_auth_ok <;> cases hs : env.session_authenticated <;>
          simp [libssh2_auth, libssh2_auth_post, hpo, hs]
      · intro hfalse
        simp [libssh2_auth, hfalse]
  · rintro rfl rfl
    constructor
    · cases hao : env.agent_auth_ok <;> cases hs : env.session_authenticated <;>
        simp [libssh2_auth, libssh2_auth_post, hao, hs]
    · intro hfalse
      simp [libssh2_auth, hfalse]

/-- Witness for the amended C8 theorem: a non-blank key-file path attempts
key auth only; no credentials at all attempt agent auth only. -/
theorem libssh2_auth_precedence_amended_witness :
    (libssh2_auth (some ("/home/u/.ssh/id_rsa")) none full_auth_env).1
      = [AuthMethod.keyFile] ∧
    (libssh2_auth none none full_auth_env).1 = [AuthMethod.agent] := by
  constructor
  · exact ((libssh2_auth_precedence_amended (some ("/home/u/.ssh/id_rsa")) none full_auth_env
      ("/home/u/.ssh/id_rsa")).1 rfl (by decide)).1
  · exact ((libssh2_auth_precedence_amended none none full_auth_env ("x")).2.2.2.2 rfl rfl).1

/-- C9: on both backends, `delete_record` and `update_record` fail with an
UnsupportedValueType error whenever the primary-key value is neither a
Number nor Text (delete fails with exactly the PK-type message; update
fails with a message from the UnsupportedValueType family, since an
unbindable new value is detected before the primary key); Number and Text
primary keys never trigger the PK-type failure, and delete succeeds on
them outright. -/
theorem pk_value_kind_check :
    ∀ (p : ConnectionParams) (table pk_col col_name : String) (pk_val new_val : JVal),
      (pk_bindable pk_val = false →
        (mysql_delete_record p table pk_col pk_val).2 = Except.error err_pk_type ∧
        (sqlite_delete_record p table pk_col pk_val).2 = Except.error err_pk_type ∧
        is_unsupported_value_err
          (mysql_update_record p table pk_col pk_val col_name new_val).2 = true ∧
        is_unsupported_value_err
          (sqlite_update_record p table pk_col pk_val col_name new_val).2 = true) ∧
      (pk_bindable pk_val = true →
        except_ok (mysql_delete_record p table pk_col pk_val).2 = true ∧
        except_ok (sqlite_delete_record p table pk_col pk_val).2 = true ∧
        except_is_pk_err
          (mysql_update_record p table pk_col pk_val col_name new_val).2 = false ∧
        except_is_pk_err
          (sqlite_update_record p table pk_col pk_val col_name new_val).2 = false) := by
  intro p table pk_col col_name pk_val new_val
  constructor
  · intro h
    cases pk_val with
    | num n => exact absurd h (by simp [pk_bindable])
    | str s => exact absurd h (by simp [pk_bindable])
    | null => cases new_val <;> exact ⟨rfl, rfl, rfl, rfl⟩
    | bool b => cases new_val <;> exact ⟨rfl, rfl, rfl, rfl⟩
    | arr => cases new_val <;> exact ⟨rfl, rfl, rfl, rfl⟩
    | obj => cases new_val <;> exact ⟨rfl, rfl, rfl, rfl⟩
  · intro h
    cases pk_val with
    | null => exact absurd h (by simp [pk_bindable])
    | bool b => exact absurd h (by simp [pk_bindable])
    | arr => exact absurd h (by simp [pk_bindable])
    | obj => exact absurd h (by simp [pk_bindable])
    | num n => cases new_val <;> exact ⟨rfl, rfl, rfl, rfl⟩
    | str s => cases new_val <;> exact ⟨rfl, rfl, rfl, rfl⟩

/-- Witness for the C9 theorem: a Bool primary key fails with the
UnsupportedValueType errors, and an integer primary key does not. -/
theorem pk_value_kind_check_witness :
    ((mysql_delete_record sample_mysql_params ("t") ("id") (JVal.bool true)).2
        = Except.error err_pk_type ∧
      (sqlite_delete_record sample_mysql_params ("t") ("id") (JVal.bool true)).2
        = Except.error err_pk_type ∧
      is_unsupported_value_err
        (mysql_update_record sample_mysql_params ("t") ("id") (JVal.bool true) ("c")
          (JVal.str ("x"))).2 = true ∧
      is_unsupported_value_err
        (sqlite_update_record sample_mysql_params ("t") ("id") (JVal.bool true) ("c")
          (JVal.str ("x"))).2 = true) ∧
    (except_ok (mysql_delete_record sample_mysql_params ("t") ("id")
        (JVal.num (JNum.i64 5))).2 = true ∧
      except_ok (sqlite_delete_record sample_mysql_params ("t") ("id")
        (JVal.num (JNum.i64 5))).2 = true ∧
      except_is_pk_err (mysql_update_record sample_mysql_params ("t") ("id")
        (JVal.num (JNum.i64 5)) ("c") (JVal.str ("x"))).2 = false ∧
      except_is_pk_err (sqlite_update_record sample_mysql_params ("t") ("id")
        (JVal.num (JNum.i64 5)) ("c") (JVal.str ("x"))).2 = false) := by
  constructor
  · exact (pk_value_kind_check sample_mysql_params ("t") ("id") ("c") (JVal.bool true)
      (JVal.str ("x"))).1 rfl
  · exact (pk_value_kind_check sample_mysql_params ("t") ("id") ("c")
      (JVal.num (JNum.i64 5)) (JVal.str ("x"))).2 rfl
